import Mathlib

/-!
Verification of the LessonsKwork payment / promo / withdrawal engine.

The Python services (backend/services/payment_service.py, promo_service.py,
withdraw_service.py, finance_service.py and backend/api/payments.py) are
shallowly embedded: the SQLAlchemy session is modelled as an explicit record
of lists of rows, every query becomes a list traversal, and every commit
becomes a functional update of that record.  Times (datetime.utcnow) are
modelled as integers passed explicitly; Python `//` is `Int.fdiv`; Python
truthiness on nullable integers/strings is modelled explicitly.
-/

namespace LK

/-! ## Constants (shared/constants.py) -/

def MIN_PRICE : Int := 1
def MAX_PRICE : Int := 10000
def MAX_PROMO_USES : Int := 1000
def MAX_DISCOUNT_PERCENT : Int := 100
def MIN_WITHDRAW_AMOUNT : Int := 100
def MAX_WITHDRAW_AMOUNT : Int := 50000
def COMMISSION_PERCENT : Int := 5
def PAYMENT_TIMEOUT_MINUTES : Int := 30
def TELEGRAM_STARS_CURRENCY : String := "XTR"

/-! ## Python truthiness helpers

In the source, `if x:` on a nullable integer column is false for both
NULL (None) and 0; on a nullable string it is false for None and "". -/

def truthyOptInt : Option Int → Bool
  | none => false
  | some v => v != 0

def truthyOptNat : Option Nat → Bool
  | none => false
  | some v => v != 0

def truthyOptStr : Option String → Bool
  | none => false
  | some s => s != ""

/-- Python str.upper() as used on promo codes, modelled as per-character
uppercasing of the character list (promo codes are ASCII). -/
def pyUpper (s : String) : String := ⟨s.data.map Char.toUpper⟩

/-! ## Data model (shared/models.py) -/

inductive PurchaseStatus
  | pending
  | completed
  | failed
  | refunded
deriving DecidableEq

inductive WithdrawStatus
  | pending
  | approved
  | completed
  | rejected
deriving DecidableEq

structure User where
  id : Nat
  isActive : Bool
deriving DecidableEq

structure Lesson where
  id : Nat
  price : Int
  isActive : Bool
deriving DecidableEq

structure Course where
  id : Nat
  totalPrice : Int
  discountPrice : Option Int
  isActive : Bool
deriving DecidableEq

structure Purchase where
  id : Nat
  userId : Nat
  lessonId : Option Nat
  courseId : Option Nat
  paymentId : String
  amount : Int
  status : PurchaseStatus
  createdAt : Int
  updatedAt : Int
deriving DecidableEq

structure PromoCode where
  id : Nat
  code : String
  discountPercent : Int
  discountAmount : Option Int
  maxUses : Option Int
  currentUses : Int
  isActive : Bool
  expiresAt : Option Int
deriving DecidableEq

structure WithdrawRequest where
  id : Nat
  amount : Int
  status : WithdrawStatus
  telegramWalletAddress : Option String
  requestedAt : Int
  processedAt : Option Int
  adminId : Option Nat
  notes : Option String
deriving DecidableEq

/-- The database session state: one list of rows per table touched by the
payment/promo/withdrawal engine. -/
structure Db where
  users : List User
  lessons : List Lesson
  courses : List Course
  purchases : List Purchase
  promocodes : List PromoCode
  withdraws : List WithdrawRequest
deriving DecidableEq

/-- PromoCode.is_valid property (shared/models.py): active, not expired,
and not exhausted.  `datetime.utcnow()` is the explicit `now` argument. -/
def PromoCode.is_valid (p : PromoCode) (now : Int) : Bool :=
  if !p.isActive then false
  else if (match p.expiresAt with | some t => t < now | none => false : Bool) then false
  else if truthyOptInt p.maxUses && p.currentUses ≥ p.maxUses.getD 0 then false
  else true

/-! ## Promo code engine (backend/services/promo_service.py) -/

/-- validate_promo_code: read-only lookup by upper-cased code, raising
(modelled as `Except.error`) when missing, inactive, expired or exhausted. -/
def validate_promo_code (db : Db) (code : String) (now : Int) :
    Except String PromoCode :=
  match db.promocodes.find? (fun p => p.code == pyUpper code) with
  | none => .error "Промокод не найден"
  | some promo =>
    if !promo.isActive then .error "Промокод деактивирован"
    else if (match promo.expiresAt with | some t => t < now | none => false : Bool) then
      .error "Промокод истек"
    else if truthyOptInt promo.maxUses && promo.currentUses ≥ promo.maxUses.getD 0 then
      .error "Промокод исчерпан"
    else .ok promo

/-- Result record of apply_discount. -/
structure DiscountInfo where
  original_amount : Int
  discount_amount : Int
  final_amount : Int
  discount_percent : Int
deriving DecidableEq

/-- apply_discount: fixed discounts (truthy discount_amount) are capped at
amount − MIN_PRICE; percentage discounts use Python floor division; the cap
is re-applied to both modes and the final amount clamped to MIN_PRICE. -/
def apply_discount (promo : PromoCode) (amount : Int) : DiscountInfo :=
  let discount0 : Int :=
    if truthyOptInt promo.discountAmount then
      min (promo.discountAmount.getD 0) (amount - MIN_PRICE)
    else
      (amount * promo.discountPercent).fdiv 100
  let discount := min discount0 (amount - MIN_PRICE)
  let final_amount := max MIN_PRICE (amount - discount)
  { original_amount := amount
    discount_amount := discount
    final_amount := final_amount
    discount_percent := if amount > 0 then (discount * 100).fdiv amount else 0 }

/-- Replace the promo-code row with the given id (a committed ORM mutation;
id is the primary key). -/
def setPromo (db : Db) (pid : Nat) (p : PromoCode) : Db :=
  { db with promocodes := db.promocodes.map (fun q => if q.id = pid then p else q) }

/-- The write-back half of use_promo_code, acting on the snapshot a session
read earlier: increment current_uses and deactivate if the limit is reached,
then commit.  Splitting read and write models the non-atomic ORM
read-modify-write in the source. -/
def redeemCommit (db : Db) (snap : PromoCode) : Db :=
  let uses := snap.currentUses + 1
  let deactivate := truthyOptInt snap.maxUses && uses ≥ snap.maxUses.getD 0
  setPromo db snap.id
    { snap with
      currentUses := uses
      isActive := if deactivate then false else snap.isActive }

/-- use_promo_code: validate (read), then increment the counter and
deactivate on exhaustion (write), returning True; validation errors are
caught and become False. -/
def use_promo_code (db : Db) (code : String) (now : Int) : Bool × Db :=
  match validate_promo_code db code now with
  | .error _ => (false, db)
  | .ok promo => (true, redeemCommit db promo)

/-! ## Payment service (backend/services/payment_service.py) -/

/-- The JSON invoice payload built by _create_invoice_payload.  json.dumps
with this fixed key set is injective on the field values, so payload strings
are modelled by this record and string equality by record equality.
Note the timestamp field: the source fills it with datetime.utcnow() at the
moment of the call. -/
structure InvoicePayload where
  user_id : Nat
  item_id : Option Nat
  item_type : String
  payment_id : String
  timestamp : Int
deriving DecidableEq

/-- _create_invoice_payload: the correlation payload embedded in an invoice,
timestamped with the current time. -/
def create_invoice_payload (userId : Nat) (itemId : Option Nat)
    (itemType : String) (paymentId : String) (now : Int) : InvoicePayload :=
  { user_id := userId
    item_id := itemId
    item_type := itemType
    payment_id := paymentId
    timestamp := now }

/-- The telegram_payment_data dict passed to verify_payment.  The
invoice_payload slot holds the parse of the provider-echoed payload string:
`none` models a string that is not a payload produced by
_create_invoice_payload (it then compares unequal to every expected
payload, exactly as the source's string comparison does). -/
structure TelegramPaymentData where
  total_amount : Int
  currency : String
  invoice_payload : Option InvoicePayload
deriving DecidableEq

/-- verify_payment: look up the purchase by payment_id; require status
pending, exact amount match, currency XTR, and the echoed payload equal to
a payload REGENERATED NOW (fresh utcnow timestamp).  Read-only: the session
state is returned unchanged. -/
def verify_payment (db : Db) (paymentId : String)
    (data : TelegramPaymentData) (now : Int) : Bool × Db :=
  match db.purchases.find? (fun p => p.paymentId == paymentId) with
  | none => (false, db)
  | some purchase =>
    if purchase.status ≠ PurchaseStatus.pending then (false, db)
    else if data.total_amount ≠ purchase.amount then (false, db)
    else if data.currency ≠ TELEGRAM_STARS_CURRENCY then (false, db)
    else
      let expectedItemId : Option Nat :=
        if truthyOptNat purchase.lessonId then purchase.lessonId else purchase.courseId
      let expectedType : String :=
        if truthyOptNat purchase.lessonId then "lesson" else "course"
      let expected :=
        create_invoice_payload purchase.userId expectedItemId expectedType paymentId now
      if data.invoice_payload ≠ some expected then (false, db)
      else (true, db)

/-- Replace the purchase row with the given id (committed ORM mutation). -/
def setPurchase (db : Db) (pid : Nat) (p : Purchase) : Db :=
  { db with purchases := db.purchases.map (fun q => if q.id = pid then p else q) }

/-- process_successful_payment: find the purchase by id and set its status
to completed — unconditionally, with no check of the current status. -/
def process_successful_payment (db : Db) (purchaseId : Nat) (now : Int) :
    Bool × Db :=
  match db.purchases.find? (fun p => p.id == purchaseId) with
  | none => (false, db)
  | some purchase =>
    (true, setPurchase db purchaseId
      { purchase with status := PurchaseStatus.completed, updatedAt := now })

/-- handle_failed_payment: find the purchase by id and set its status to
failed — unconditionally, with no check of the current status.  The error
string argument is unused by the state transition. -/
def handle_failed_payment (db : Db) (purchaseId : Nat) (error : String)
    (now : Int) : Bool × Db :=
  match db.purchases.find? (fun p => p.id == purchaseId) with
  | none => (false, db)
  | some purchase =>
    (true, setPurchase db purchaseId
      { purchase with status := PurchaseStatus.failed, updatedAt := now })

/-- The selection predicate of cancel_expired_payments: pending and created
strictly before now − timeout. -/
def expiredPending (timeout : Int) (now : Int) (p : Purchase) : Bool :=
  p.status = PurchaseStatus.pending && p.createdAt < now - timeout

/-- Generalized sweep: collect the expired pending purchases, mark each as
failed (a committed per-row ORM mutation) and return their count.  The
source fixes the timeout to PAYMENT_TIMEOUT_MINUTES; the cutoff is
`utcnow() − timedelta(minutes=timeout)`. -/
def sweepExpired (timeout : Int) (db : Db) (now : Int) : Nat × Db :=
  let expired := db.purchases.filter (expiredPending timeout now)
  let purchases := db.purchases.map (fun p =>
    if p ∈ expired then { p with status := PurchaseStatus.failed, updatedAt := now } else p)
  (expired.length, { db with purchases := purchases })

/-- cancel_expired_payments: the sweep at the constant timeout. -/
def cancel_expired_payments (db : Db) (now : Int) : Nat × Db :=
  sweepExpired PAYMENT_TIMEOUT_MINUTES db now

/-! ## Withdrawal ledger (backend/services/withdraw_service.py,
backend/services/finance_service.py) -/

/-- Contribution of one withdraw-request row to the approved+completed sum
(the SQL SUM filtered on status IN (approved, completed)). -/
def acAmt (w : WithdrawRequest) : Int :=
  if w.status = WithdrawStatus.approved ∨ w.status = WithdrawStatus.completed then w.amount else 0

/-- Contribution of one withdraw-request row to the pending sum. -/
def pendAmt (w : WithdrawRequest) : Int :=
  if w.status = WithdrawStatus.pending then w.amount else 0

/-- Contribution of one purchase row to completed revenue. -/
def revAmt (p : Purchase) : Int :=
  if p.status = PurchaseStatus.completed then p.amount else 0

/-- SUM(amount) over completed purchases. -/
def totalRevenue (db : Db) : Int := (db.purchases.map revAmt).sum

/-- SUM(amount) over approved and completed withdraw requests. -/
def totalWithdraws (db : Db) : Int := (db.withdraws.map acAmt).sum

/-- SUM(amount) over pending withdraw requests. -/
def pendingWithdraws (db : Db) : Int := (db.withdraws.map pendAmt).sum

/-- Platform commission: floor(total_revenue * COMMISSION_PERCENT / 100). -/
def commissionOf (db : Db) : Int := (totalRevenue db * COMMISSION_PERCENT).fdiv 100

/-- WithdrawService._calculate_available_amount: revenue minus already
approved/completed withdrawals minus pending withdrawals minus commission,
floored at zero. -/
def calculate_available_amount (db : Db) : Int :=
  max 0 (totalRevenue db - totalWithdraws db - pendingWithdraws db - commissionOf db)

/-- Result record of FinanceService.calculate_withdrawable_amount. -/
structure WithdrawableAmount where
  total_revenue : Int
  total_withdraws : Int
  pending_withdraws : Int
  available_amount : Int
  commission_amount : Int
deriving DecidableEq

/-- FinanceService.calculate_withdrawable_amount: the same four aggregates,
packaged with the zero-floored available amount. -/
def calculate_withdrawable_amount (db : Db) : WithdrawableAmount :=
  let total_revenue := totalRevenue db
  let total_withdraws := totalWithdraws db
  let pending_withdraws := pendingWithdraws db
  let commission_amount := (total_revenue * COMMISSION_PERCENT).fdiv 100
  let available_amount :=
    max 0 (total_revenue - total_withdraws - pending_withdraws - commission_amount)
  { total_revenue := total_revenue
    total_withdraws := total_withdraws
    pending_withdraws := pending_withdraws
    available_amount := available_amount
    commission_amount := commission_amount }

/-- Autoincremented primary key for a new withdraw-request row: one more
than the largest id in the table. -/
def freshWithdrawId (db : Db) : Nat :=
  (db.withdraws.map (fun w => w.id)).foldl Nat.max 0 + 1

/-- Replace the withdraw-request row with the given id (committed ORM
mutation; id is the primary key). -/
def setWithdraw (db : Db) (wid : Nat) (w : WithdrawRequest) : Db :=
  { db with withdraws := db.withdraws.map (fun q => if q.id = wid then w else q) }

def get_withdraw_request_by_id (db : Db) (requestId : Nat) : Option WithdrawRequest :=
  db.withdraws.find? (fun w => w.id == requestId)

/-- create_withdraw_request: validate the amount bounds, check the amount
against the available balance at request time, then persist a pending row. -/
def create_withdraw_request (db : Db) (amount : Int)
    (walletAddress notes : Option String) (now : Int) :
    Except String WithdrawRequest × Db :=
  if amount < MIN_WITHDRAW_AMOUNT then
    (.error "Минимальная сумма для вывода", db)
  else if amount > MAX_WITHDRAW_AMOUNT then
    (.error "Максимальная сумма для вывода", db)
  else
    let available := calculate_available_amount db
    if amount > available then (.error "Недостаточно средств", db)
    else
      let w : WithdrawRequest :=
        { id := freshWithdrawId db
          amount := amount
          status := WithdrawStatus.pending
          telegramWalletAddress := walletAddress
          requestedAt := now
          processedAt := none
          adminId := none
          notes := notes }
      (.ok w, { db with withdraws := db.withdraws ++ [w] })

/-- approve_withdraw: only a pending request can be approved; the available
balance is re-evaluated at approval time and, if insufficient, the request
is auto-rejected with an explanatory note and False is returned. -/
def approve_withdraw (db : Db) (requestId adminId : Nat)
    (notes : Option String) (now : Int) : Bool × Db :=
  match get_withdraw_request_by_id db requestId with
  | none => (false, db)
  | some w =>
    if w.status ≠ WithdrawStatus.pending then (false, db)
    else
      let available := calculate_available_amount db
      if w.amount > available then
        (false, setWithdraw db w.id
          { w with
            status := WithdrawStatus.rejected
            notes := some ("Недостаточно средств. Доступно: " ++ toString available ++ " Stars")
            adminId := some adminId
            processedAt := some now })
      else
        (true, setWithdraw db w.id
          { w with
            status := WithdrawStatus.approved
            adminId := some adminId
            processedAt := some now
            notes := if truthyOptStr notes then notes else w.notes })

/-- reject_withdraw: pending → rejected with the given reason. -/
def reject_withdraw (db : Db) (requestId adminId : Nat) (reason : String)
    (now : Int) : Bool × Db :=
  match get_withdraw_request_by_id db requestId with
  | none => (false, db)
  | some w =>
    if w.status ≠ WithdrawStatus.pending then (false, db)
    else
      (true, setWithdraw db w.id
        { w with
          status := WithdrawStatus.rejected
          adminId := some adminId
          notes := some reason
          processedAt := some now })

/-- process_withdraw: approved → completed. -/
def process_withdraw (db : Db) (requestId adminId : Nat) (now : Int) :
    Bool × Db :=
  match get_withdraw_request_by_id db requestId with
  | none => (false, db)
  | some w =>
    if w.status ≠ WithdrawStatus.approved then (false, db)
    else
      (true, setWithdraw db w.id
        { w with
          status := WithdrawStatus.completed
          adminId := some adminId
          processedAt := some now })

/-- One administrative withdrawal operation, with its own wall-clock time. -/
inductive WithdrawOp
  | create (amount : Int) (walletAddress notes : Option String) (now : Int)
  | approve (requestId adminId : Nat) (notes : Option String) (now : Int)
  | reject (requestId adminId : Nat) (reason : String) (now : Int)
  | process (requestId adminId : Nat) (now : Int)

/-- State effect of one withdrawal operation. -/
def applyWithdrawOp (db : Db) : WithdrawOp → Db
  | .create amount wallet notes now => (create_withdraw_request db amount wallet notes now).2
  | .approve rid aid notes now => (approve_withdraw db rid aid notes now).2
  | .reject rid aid reason now => (reject_withdraw db rid aid reason now).2
  | .process rid aid now => (process_withdraw db rid aid now).2

/-- State effect of a sequence of withdrawal operations. -/
def applyWithdrawOps (db : Db) (ops : List WithdrawOp) : Db :=
  ops.foldl applyWithdrawOp db

/-! ## Payment creation (backend/services/payment_service.py) -/

/-- The item found by _get_item_and_price. -/
inductive Item
  | lesson (l : Lesson)
  | course (c : Course)
deriving DecidableEq

def Item.isActive : Item → Bool
  | .lesson l => l.isActive
  | .course c => c.isActive

/-- _get_item_and_price: dispatch on the item_type string; a lesson's price
is its price column, a course's price is `discount_price or total_price`
(Python truthiness: a NULL or 0 discount price falls back to total_price);
a missing item yields (None, 0); any other type string raises. -/
def get_item_and_price (db : Db) (itemId : Nat) (itemType : String) :
    Except String (Option Item × Int) :=
  if itemType = "lesson" then
    match db.lessons.find? (fun l => l.id == itemId) with
    | some l => .ok (some (.lesson l), l.price)
    | none => .ok (none, 0)
  else if itemType = "course" then
    match db.courses.find? (fun c => c.id == itemId) with
    | some c =>
      .ok (some (.course c),
        if truthyOptInt c.discountPrice then c.discountPrice.getD 0 else c.totalPrice)
    | none => .ok (none, 0)
  else .error "Неподдерживаемый тип товара"

/-- _check_existing_purchase: does the user already have a completed
purchase of this item? -/
def check_existing_purchase (db : Db) (userId itemId : Nat)
    (itemType : String) : Bool :=
  (db.purchases.find? (fun p =>
    p.userId == userId && p.status == PurchaseStatus.completed &&
    (if itemType = "lesson" then p.lessonId == some itemId
     else p.courseId == some itemId))).isSome

/-- PaymentService._apply_promo_code: look the code up, require is_valid
and an unexhausted limit, compute the discount (a fixed discount is capped
at base_price, a percentage uses floor division), clamp the final price to
MIN_PRICE, then increment current_uses and commit.  Unlike
PromoCodeService.use_promo_code it never touches is_active. -/
def apply_promo_code_payment (db : Db) (code : String) (basePrice : Int)
    (now : Int) : Except String (Int × Int) × Db :=
  match db.promocodes.find? (fun p => p.code == pyUpper code) with
  | none => (.error "Промокод недействителен", db)
  | some promo =>
    if !promo.is_valid now then (.error "Промокод недействителен", db)
    else if truthyOptInt promo.maxUses && promo.currentUses ≥ promo.maxUses.getD 0 then
      (.error "Промокод исчерпан", db)
    else
      let discount : Int :=
        if truthyOptInt promo.discountAmount then
          min (promo.discountAmount.getD 0) basePrice
        else
          (basePrice * promo.discountPercent).fdiv 100
      let finalPrice := max MIN_PRICE (basePrice - discount)
      (.ok (discount, finalPrice),
       setPromo db promo.id { promo with currentUses := promo.currentUses + 1 })

/-- Result record of create_payment (shared/schemas PaymentResponse). -/
structure PaymentResponse where
  payment_id : String
  amount : Int
  final_amount : Int
  discount_applied : Int
  invoice_payload : InvoicePayload
deriving DecidableEq

/-- create_payment: validate the user, the item (existence, type and
active flag) and the absence of a prior completed purchase, optionally
apply a promo code (which commits its counter increment), then persist one
pending purchase carrying the final price and a freshly generated
payment_id.  The uuid-derived payment_id and the autoincremented row id are
passed in explicitly (`freshPaymentId`, `newPurchaseId`). -/
def create_payment (db : Db) (userId itemId : Nat) (itemType : String)
    (promoCode : Option String) (freshPaymentId : String)
    (newPurchaseId : Nat) (now : Int) : Except String PaymentResponse × Db :=
  match db.users.find? (fun u => u.id == userId) with
  | none => (.error "Пользователь не найден", db)
  | some user =>
    if !user.isActive then (.error "Пользователь неактивен", db)
    else
      match get_item_and_price db itemId itemType with
      | .error e => (.error e, db)
      | .ok (none, _) => (.error "не найден", db)
      | .ok (some item, basePrice) =>
        if !item.isActive then (.error "неактивен", db)
        else if check_existing_purchase db userId itemId itemType then
          (.error "Товар уже приобретен", db)
        else
          let promoStep : Except String (Int × Int) × Db :=
            match promoCode with
            | none => (.ok (0, basePrice), db)
            | some code => apply_promo_code_payment db code basePrice now
          match promoStep with
          | (.error e, db1) => (.error e, db1)
          | (.ok (discount, finalPrice), db1) =>
            let payload :=
              create_invoice_payload userId (some itemId) itemType freshPaymentId now
            let purchase : Purchase :=
              { id := newPurchaseId
                userId := userId
                lessonId := if itemType = "lesson" then some itemId else none
                courseId := if itemType = "lesson" then none else some itemId
                paymentId := freshPaymentId
                amount := finalPrice
                status := PurchaseStatus.pending
                createdAt := now
                updatedAt := now }
            (.ok
              { payment_id := freshPaymentId
                amount := basePrice
                final_amount := finalPrice
                discount_applied := discount
                invoice_payload := payload },
             { db1 with purchases := db1.purchases ++ [purchase] })

/-! ## Webhook reconciler (backend/api/payments.py,
_process_successful_payment_webhook) -/

/-- The parse of the invoice_payload string carried by a webhook
successful_payment event: json.loads result with an optional payment_id and
the other (unused) fields. -/
structure PayloadJson where
  user_id : Option Int
  item_id : Option Int
  item_type : Option String
  payment_id : Option String
  timestamp : Option Int
deriving DecidableEq

/-- A webhook successful_payment object.  invoicePayloadParse is `none`
when json.loads fails on the payload string. -/
structure SuccessfulPaymentEvent where
  invoicePayloadParse : Option PayloadJson
  telegramPaymentChargeId : String
  totalAmount : Int
  currency : String
deriving DecidableEq

/-- The payment_id the handler extracts: none when the payload fails to
parse, lacks a payment_id, or carries a falsy (empty) one. -/
def extractPaymentId (ev : SuccessfulPaymentEvent) : Option String :=
  match ev.invoicePayloadParse with
  | none => none
  | some pj =>
    match pj.payment_id with
    | none => none
    | some pid => if pid = "" then none else some pid

/-- _process_successful_payment_webhook: take the successful_payment object
out of the message (absent → no-op), parse its invoice payload, extract
payment_id, look the purchase up by payment_id, and finalize it via
process_successful_payment.  Amount, currency and charge id are never
consulted. -/
def process_successful_payment_webhook (db : Db)
    (event : Option SuccessfulPaymentEvent) (now : Int) : Db :=
  match event with
  | none => db
  | some ev =>
    match extractPaymentId ev with
    | none => db
    | some pid =>
      match db.purchases.find? (fun p => p.paymentId == pid) with
      | none => db
      | some purchase => (process_successful_payment db purchase.id now).2

/-! ## Concrete states used by scenario checks, counterexamples and
witnesses -/

def emptyDb : Db :=
  { users := [], lessons := [], courses := [], purchases := [],
    promocodes := [], withdraws := [] }

/-- The TEST10 promo code of the spec scenario: discount_percent = 10. -/
def promoTEST10 : PromoCode :=
  { id := 1, code := "TEST10", discountPercent := 10, discountAmount := none,
    maxUses := none, currentUses := 0, isActive := true, expiresAt := none }

/-! ## Helper lemmas -/

/-- Whatever raw discount a branch computes, after the shared cap at
amount − MIN_PRICE the subtraction round-trips and the final amount is at
least MIN_PRICE. -/
lemma clamp_round_trip (amount d0 : Int) :
    amount - min d0 (amount - MIN_PRICE)
        = max MIN_PRICE (amount - min d0 (amount - MIN_PRICE))
      ∧ MIN_PRICE ≤ max MIN_PRICE (amount - min d0 (amount - MIN_PRICE)) := by
  unfold MIN_PRICE
  omega

/-! ## Claim theorems -/

/-- C7: for every PromoCode and integer base amount, apply_discount returns
a record with original_amount − discount_amount = final_amount and
final_amount ≥ MIN_PRICE; in particular on base amount 100 with the
TEST10 promo (discount_percent = 10) it returns original 100, discount 10,
final 90. -/
theorem C7_apply_discount_round_trip :
    (∀ (promo : PromoCode) (amount : Int),
      (apply_discount promo amount).original_amount
          - (apply_discount promo amount).discount_amount
        = (apply_discount promo amount).final_amount
      ∧ MIN_PRICE ≤ (apply_discount promo amount).final_amount)
    ∧ (apply_discount promoTEST10 100).original_amount = 100
    ∧ (apply_discount promoTEST10 100).discount_amount = 10
    ∧ (apply_discount promoTEST10 100).final_amount = 90 := by
  refine ⟨fun promo amount => ?_, by decide, by decide, by decide⟩
  exact clamp_round_trip amount
    (if truthyOptInt promo.discountAmount then
      min (promo.discountAmount.getD 0) (amount - MIN_PRICE)
    else (amount * promo.discountPercent).fdiv 100)

/-- Scenario state for the available-balance computation: completed
purchases summing to 10000 (plus a pending one that must not count),
approved+completed withdrawals summing to 2000 (plus a rejected one that
must not count) and pending withdrawals summing to 500. -/
def dbC4 : Db :=
  { emptyDb with
    purchases :=
      [ { id := 1, userId := 1, lessonId := some 1, courseId := none,
          paymentId := "pay_1", amount := 6000,
          status := PurchaseStatus.completed, createdAt := 0, updatedAt := 0 },
        { id := 2, userId := 2, lessonId := none, courseId := some 1,
          paymentId := "pay_2", amount := 4000,
          status := PurchaseStatus.completed, createdAt := 0, updatedAt := 0 },
        { id := 3, userId := 3, lessonId := some 2, courseId := none,
          paymentId := "pay_3", amount := 999,
          status := PurchaseStatus.pending, createdAt := 0, updatedAt := 0 } ]
    withdraws :=
      [ { id := 1, amount := 1500, status := WithdrawStatus.approved,
          telegramWalletAddress := none, requestedAt := 0, processedAt := some 1,
          adminId := some 1, notes := none },
        { id := 2, amount := 500, status := WithdrawStatus.completed,
          telegramWalletAddress := none, requestedAt := 0, processedAt := some 1,
          adminId := some 1, notes := none },
        { id := 3, amount := 500, status := WithdrawStatus.pending,
          telegramWalletAddress := none, requestedAt := 0, processedAt := none,
          adminId := none, notes := none },
        { id := 4, amount := 123, status := WithdrawStatus.rejected,
          telegramWalletAddress := none, requestedAt := 0, processedAt := some 1,
          adminId := some 1, notes := none } ] }

/-- C4: the available balance equals completed revenue minus
approved+completed withdrawals minus pending withdrawals minus
commission = floor(revenue * COMMISSION_PERCENT / 100), floored at zero;
the withdraw-service copy of the computation agrees; and on the scenario
state (revenue 10000, commission percent 5, withdrawn 2000, pending 500)
it returns 7000. -/
theorem C4_available_balance :
    (∀ db : Db,
      (calculate_withdrawable_amount db).available_amount
        = max 0 (totalRevenue db - totalWithdraws db - pendingWithdraws db
            - (totalRevenue db * COMMISSION_PERCENT).fdiv 100))
    ∧ (∀ db : Db,
        calculate_available_amount db = (calculate_withdrawable_amount db).available_amount)
    ∧ totalRevenue dbC4 = 10000
    ∧ totalWithdraws dbC4 = 2000
    ∧ pendingWithdraws dbC4 = 500
    ∧ (calculate_withdrawable_amount dbC4).commission_amount = 500
    ∧ (calculate_withdrawable_amount dbC4).available_amount = 7000 := by
  exact ⟨fun db => rfl, fun db => rfl, by decide, by decide, by decide,
    by decide, by decide⟩

/-- A purchase already finalized as completed. -/
def purchC1 : Purchase :=
  { id := 1, userId := 1, lessonId := some 1, courseId := none,
    paymentId := "pay_a", amount := 100, status := PurchaseStatus.completed,
    createdAt := 0, updatedAt := 0 }

def dbC1 : Db := { emptyDb with purchases := [purchC1] }

/-- A purchase already failed. -/
def purchC1b : Purchase :=
  { id := 1, userId := 1, lessonId := some 1, courseId := none,
    paymentId := "pay_b", amount := 100, status := PurchaseStatus.failed,
    createdAt := 0, updatedAt := 0 }

def dbC1b : Db := { emptyDb with purchases := [purchC1b] }

/-- C1 counterexample: handle_failed_payment moves an already-completed
purchase to failed (returning True), and process_successful_payment moves
an already-failed purchase to completed (returning True) — neither call is
a no-op on a terminal status. -/
theorem C1_overwrite_cex :
    dbC1.purchases.map (fun p => p.status) = [PurchaseStatus.completed]
    ∧ (handle_failed_payment dbC1 1 "provider error" 5).1 = true
    ∧ ((handle_failed_payment dbC1 1 "provider error" 5).2.purchases.map
        (fun p => p.status)) = [PurchaseStatus.failed]
    ∧ dbC1b.purchases.map (fun p => p.status) = [PurchaseStatus.failed]
    ∧ (process_successful_payment dbC1b 1 5).1 = true
    ∧ ((process_successful_payment dbC1b 1 5).2.purchases.map
        (fun p => p.status)) = [PurchaseStatus.completed] := by
  decide

/-- C1 amended: process_successful_payment and handle_failed_payment check
only that the purchase exists; they then set its status to
completed/failed unconditionally, regardless of any terminal status the
purchase already has, and return True.  They return False (leaving the
state unchanged) only when no purchase with that id exists. -/
theorem C1_unconditional_transition :
    ∀ (db : Db) (purchaseId : Nat) (err : String) (now : Int),
      (db.purchases.find? (fun p => p.id == purchaseId) = none →
        process_successful_payment db purchaseId now = (false, db)
        ∧ handle_failed_payment db purchaseId err now = (false, db))
      ∧ (∀ purchase,
          db.purchases.find? (fun p => p.id == purchaseId) = some purchase →
          process_successful_payment db purchaseId now
            = (true, setPurchase db purchaseId
                { purchase with status := PurchaseStatus.completed, updatedAt := now })
          ∧ handle_failed_payment db purchaseId err now
            = (true, setPurchase db purchaseId
                { purchase with status := PurchaseStatus.failed, updatedAt := now })) := by
  intro db purchaseId err now
  constructor
  · intro h
    constructor <;>
      simp [process_successful_payment, handle_failed_payment, h]
  · intro purchase h
    constructor <;>
      simp [process_successful_payment, handle_failed_payment, h]

/-- Witness for C1: the amended behavior evaluated on concrete states —
a lookup miss returns False unchanged, and a hit on a completed purchase
flips it to failed. -/
theorem C1_unconditional_transition_witness :
    (process_successful_payment dbC1 2 7 = (false, dbC1)
      ∧ handle_failed_payment dbC1 2 "e" 7 = (false, dbC1))
    ∧ handle_failed_payment dbC1 1 "e" 7
        = (true, setPurchase dbC1 1
            { purchC1 with status := PurchaseStatus.failed, updatedAt := 7 }) :=
  ⟨(C1_unconditional_transition dbC1 2 "e" 7).1 (by decide),
   ((C1_unconditional_transition dbC1 1 "e" 7).2 purchC1 (by decide)).2⟩

/-- A one-use promo code with no redemption yet. -/
def promoC2 : PromoCode :=
  { id := 1, code := "TESTA", discountPercent := 10, discountAmount := none,
    maxUses := some 1, currentUses := 0, isActive := true, expiresAt := none }

def dbC2 : Db := { emptyDb with promocodes := [promoC2] }

/-- C2 counterexample: the redemption inside
PaymentService._apply_promo_code succeeds on a max_uses = 1 code and
increments current_uses to the limit, but leaves is_active true — it never
performs the exhaustion-triggered deactivation the claim asserts. -/
theorem C2_no_deactivation_cex :
    (apply_promo_code_payment dbC2 "TESTA" 100 0).1 = .ok (10, 90)
    ∧ ((apply_promo_code_payment dbC2 "TESTA" 100 0).2.promocodes.map
        (fun p => (p.currentUses, p.maxUses, p.isActive)))
      = [(1, some 1, true)] := by
  exact ⟨rfl, by decide⟩

/-- C2 amended: PromoCodeService.use_promo_code increments current_uses by
exactly one and deactivates the code in the same operation when the new
count reaches max_uses; PaymentService._apply_promo_code increments
current_uses by exactly one but never touches is_active.  In both, a
successful redemption of a code with a nonzero max_uses limit starts from
current_uses < max_uses, so current_uses never exceeds max_uses. -/
theorem C2_redemption_increment :
    (∀ (db : Db) (code : String) (now : Int) (promo : PromoCode),
      validate_promo_code db code now = .ok promo →
      use_promo_code db code now
        = (true, setPromo db promo.id
            { promo with
              currentUses := promo.currentUses + 1
              isActive :=
                if truthyOptInt promo.maxUses
                    && promo.currentUses + 1 ≥ promo.maxUses.getD 0 then false
                else promo.isActive })
      ∧ (truthyOptInt promo.maxUses →
          promo.currentUses + 1 ≤ promo.maxUses.getD 0))
    ∧ (∀ (db db1 : Db) (code : String) (basePrice now : Int) (res : Int × Int),
        apply_promo_code_payment db code basePrice now = (.ok res, db1) →
        ∃ promo, db.promocodes.find? (fun p => p.code == pyUpper code) = some promo
          ∧ db1 = setPromo db promo.id { promo with currentUses := promo.currentUses + 1 }
          ∧ (truthyOptInt promo.maxUses →
              promo.currentUses + 1 ≤ promo.maxUses.getD 0)) := by
  constructor
  · intro db code now promo hv
    have hv2 := hv
    have hbound : truthyOptInt promo.maxUses = true →
        promo.currentUses + 1 ≤ promo.maxUses.getD 0 := by
      intro ht
      unfold validate_promo_code at hv2
      split at hv2
      · cases hv2
      · split at hv2
        · cases hv2
        · split at hv2
          · cases hv2
          · split at hv2
            · cases hv2
            · rename_i q hfindq h1 h2 hexh
              obtain rfl : q = promo := Except.ok.inj hv2
              rw [ht] at hexh
              simp at hexh
              omega
    refine ⟨?_, hbound⟩
    unfold use_promo_code
    rw [hv]
    rfl
  · intro db db1 code basePrice now res happ
    unfold apply_promo_code_payment at happ
    split at happ
    · simp at happ
    · rename_i q hfindq
      split at happ
      · simp at happ
      · split at happ
        · simp at happ
        · rename_i hval hexh
          refine ⟨q, hfindq, ?_, ?_⟩
          · have h2 := congrArg Prod.snd happ
            exact h2.symm
          · intro ht
            rw [ht] at hexh
            simp at hexh
            omega

/-- The promo table state after one successful redemption through the
payment path: counter incremented, is_active untouched. -/
def dbC2after : Db := setPromo dbC2 1 { promoC2 with currentUses := 1 }

/-- Witness for C2: the amended behavior on a concrete one-use code —
use_promo_code increments to the limit and deactivates, and the payment
path increments without exceeding the limit. -/
theorem C2_redemption_increment_witness :
    (use_promo_code dbC2 "TESTA" 0
      = (true, setPromo dbC2 1
          { promoC2 with
            currentUses := promoC2.currentUses + 1
            isActive :=
              if truthyOptInt promoC2.maxUses
                  && promoC2.currentUses + 1 ≥ promoC2.maxUses.getD 0 then false
              else promoC2.isActive })
      ∧ (truthyOptInt promoC2.maxUses →
          promoC2.currentUses + 1 ≤ promoC2.maxUses.getD 0))
    ∧ (∃ promo, dbC2.promocodes.find? (fun p => p.code == pyUpper "TESTA") = some promo
        ∧ dbC2after = setPromo dbC2 promo.id { promo with currentUses := promo.currentUses + 1 }
        ∧ (truthyOptInt promo.maxUses →
            promo.currentUses + 1 ≤ promo.maxUses.getD 0)) :=
  ⟨C2_redemption_increment.1 dbC2 "TESTA" 0 promoC2 rfl,
   C2_redemption_increment.2 dbC2 dbC2after "TESTA" 100 0 (10, 90) rfl⟩

/-- A pending purchase awaiting webhook confirmation. -/
def purchC5 : Purchase :=
  { id := 1, userId := 1, lessonId := some 1, courseId := none,
    paymentId := "pay_t", amount := 100, status := PurchaseStatus.pending,
    createdAt := 0, updatedAt := 0 }

def dbC5 : Db := { emptyDb with purchases := [purchC5] }

/-- Provider data for purchC5: correct amount, correct currency, and the
exact invoice payload that was generated at creation time (timestamp 0). -/
def dataC5 : TelegramPaymentData :=
  { total_amount := 100
    currency := "XTR"
    invoice_payload := some (create_invoice_payload 1 (some 1) "lesson" "pay_t" 0) }

/-- C5: evaluation of verify_payment at the failing input.  Every condition
the claim lists holds — the purchase exists and is pending, the charged
amount equals its amount, the currency is XTR, and the payload's
correlation fields (user_id, item_id, item_type, payment_id) all match the
purchase — yet verification at any time other than the creation instant
returns false, because the code compares the payload against one
regenerated with a fresh utcnow() timestamp.  At the exact creation
instant (now = 0) the same call returns true, isolating the regenerated
timestamp as the only mismatch. -/
theorem C5_fresh_timestamp_breaks_verification :
    (purchC5.status = PurchaseStatus.pending
      ∧ dataC5.total_amount = purchC5.amount
      ∧ dataC5.currency = TELEGRAM_STARS_CURRENCY
      ∧ dataC5.invoice_payload.map
          (fun pl => (pl.user_id, pl.item_id, pl.item_type, pl.payment_id))
        = some (purchC5.userId, purchC5.lessonId, "lesson", purchC5.paymentId))
    ∧ verify_payment dbC5 "pay_t" dataC5 1 = (false, dbC5)
    ∧ verify_payment dbC5 "pay_t" dataC5 0 = (true, dbC5) := by
  exact ⟨by decide, by decide, by decide⟩

/-- C6: the background webhook handler decides the transition solely from
the payment_id extracted out of the parsed invoice payload: two events
with the same extracted payment_id produce identical states whatever their
amount, currency, charge id or remaining payload fields; and when the
extracted payment_id resolves to a purchase, that purchase is set to
completed. -/
theorem C6_webhook_payment_id_only :
    (∀ (db : Db) (e1 e2 : SuccessfulPaymentEvent) (now : Int),
      extractPaymentId e1 = extractPaymentId e2 →
      process_successful_payment_webhook db (some e1) now
        = process_successful_payment_webhook db (some e2) now)
    ∧ (∀ (db : Db) (ev : SuccessfulPaymentEvent) (pid : String)
        (purchase : Purchase) (now : Int),
        extractPaymentId ev = some pid →
        db.purchases.find? (fun p => p.paymentId == pid) = some purchase →
        db.purchases.find? (fun p => p.id == purchase.id) = some purchase →
        process_successful_payment_webhook db (some ev) now
          = setPurchase db purchase.id
              { purchase with status := PurchaseStatus.completed, updatedAt := now }) := by
  constructor
  · intro db e1 e2 now h
    unfold process_successful_payment_webhook
    dsimp only
    rw [h]
  · intro db ev pid purchase now h1 h2 h3
    simp only [process_successful_payment_webhook, h1, h2,
      process_successful_payment, h3]

/-- A pending purchase and two webhook events that agree on the embedded
payment_id but on nothing else (amounts, currencies and charge ids all
differ, and one carries junk correlation fields). -/
def purchC6 : Purchase :=
  { id := 1, userId := 1, lessonId := some 1, courseId := none,
    paymentId := "pay_w", amount := 100, status := PurchaseStatus.pending,
    createdAt := 0, updatedAt := 0 }

def dbC6 : Db := { emptyDb with purchases := [purchC6] }

def evC6a : SuccessfulPaymentEvent :=
  { invoicePayloadParse :=
      some { user_id := none, item_id := none, item_type := none,
             payment_id := some "pay_w", timestamp := none }
    telegramPaymentChargeId := ""
    totalAmount := 0
    currency := "" }

def evC6b : SuccessfulPaymentEvent :=
  { invoicePayloadParse :=
      some { user_id := some 999, item_id := some 42, item_type := some "course",
             payment_id := some "pay_w", timestamp := some 123 }
    telegramPaymentChargeId := "charge_xyz"
    totalAmount := 77777
    currency := "USD" }

/-- Witness for C6: the two wildly different events produce the same state,
and that state is the purchase finalized as completed. -/
theorem C6_webhook_payment_id_only_witness :
    process_successful_payment_webhook dbC6 (some evC6a) 9
      = process_successful_payment_webhook dbC6 (some evC6b) 9
    ∧ process_successful_payment_webhook dbC6 (some evC6a) 9
      = setPurchase dbC6 purchC6.id
          { purchC6 with status := PurchaseStatus.completed, updatedAt := 9 } :=
  ⟨C6_webhook_payment_id_only.1 dbC6 evC6a evC6b 9 (by decide),
   C6_webhook_payment_id_only.2 dbC6 evC6a "pay_w" purchC6 9
     (by decide) (by decide) (by decide)⟩

/-- Scenario purchases for the sweep: one pending since T = 0 and one that
a webhook finalized as completed before the timeout elapsed. -/
def purchC8a : Purchase :=
  { id := 1, userId := 1, lessonId := some 1, courseId := none,
    paymentId := "pay_p", amount := 100, status := PurchaseStatus.pending,
    createdAt := 0, updatedAt := 0 }

def purchC8b : Purchase :=
  { id := 2, userId := 2, lessonId := some 2, courseId := none,
    paymentId := "pay_q", amount := 200, status := PurchaseStatus.completed,
    createdAt := 0, updatedAt := 29 }

def dbC8 : Db := { emptyDb with purchases := [purchC8a, purchC8b] }

/-- C8: for every timeout and state, the sweep maps exactly the pending
purchases created more than timeout minutes ago to failed, leaves every
other purchase unchanged, and returns the count of swept purchases;
cancel_expired_payments is the sweep at PAYMENT_TIMEOUT_MINUTES = 30.
On the scenario state, the sweep at T+31 fails the still-pending purchase
and leaves the webhook-completed one untouched. -/
theorem C8_sweep_exactly_expired :
    (∀ (timeout : Int) (db : Db) (now : Int),
      (sweepExpired timeout db now).2.purchases
          = db.purchases.map (fun p =>
              if expiredPending timeout now p then
                { p with status := PurchaseStatus.failed, updatedAt := now }
              else p)
      ∧ (sweepExpired timeout db now).1
          = (db.purchases.filter (expiredPending timeout now)).length
      ∧ cancel_expired_payments db now = sweepExpired PAYMENT_TIMEOUT_MINUTES db now)
    ∧ ((cancel_expired_payments dbC8 31).2.purchases.map (fun p => p.status)
        = [PurchaseStatus.failed, PurchaseStatus.completed])
    ∧ (cancel_expired_payments dbC8 31).1 = 1
    ∧ (cancel_expired_payments dbC8 31).2.purchases.getLast? = some purchC8b := by
  refine ⟨fun timeout db now => ⟨?_, rfl, rfl⟩, by decide, by decide, by decide⟩
  unfold sweepExpired
  dsimp only
  apply List.map_congr_left
  intro p hp
  by_cases h : expiredPending timeout now p
  · simp [h, List.mem_filter, hp]
  · simp [h, List.mem_filter, hp]

/-- The promo step of create_payment never touches the purchases table. -/
lemma apply_promo_purchases (db : Db) (code : String) (b now : Int) :
    (apply_promo_code_payment db code b now).2.purchases = db.purchases := by
  unfold apply_promo_code_payment
  split
  · rfl
  · split
    · rfl
    · split
      · rfl
      · rfl

/-- When the promo step of create_payment raises, the session state is
untouched. -/
lemma apply_promo_error_eq (db : Db) (code : String) (b now : Int)
    (e : String) (db2 : Db) :
    apply_promo_code_payment db code b now = (.error e, db2) → db2 = db := by
  intro h
  unfold apply_promo_code_payment at h
  split at h
  · exact (congrArg Prod.snd h).symm
  · split at h
    · exact (congrArg Prod.snd h).symm
    · split at h
      · exact (congrArg Prod.snd h).symm
      · have := congrArg Prod.fst h
        simp at this

/-- A user, an active lesson and an empty purchase table: the valid context
for payment creation. -/
def userC9 : User := { id := 1, isActive := true }

def lessonC9 : Lesson := { id := 1, price := 100, isActive := true }

def dbC9 : Db := { emptyDb with users := [userC9], lessons := [lessonC9] }

/-- C9 counterexample: with an existing active user, an existing active
lesson, a supported item type and no prior completed purchase — i.e. none
of the claim's failure conditions — a call that supplies an unknown promo
code fails with an error and persists nothing, where the claim requires
exactly one new pending Purchase to be persisted. -/
theorem C9_promo_failure_cex :
    (dbC9.users.find? (fun u => u.id == 1) = some userC9 ∧ userC9.isActive = true)
    ∧ (get_item_and_price dbC9 1 "lesson" = .ok (some (.lesson lessonC9), 100)
        ∧ lessonC9.isActive = true)
    ∧ check_existing_purchase dbC9 1 1 "lesson" = false
    ∧ create_payment dbC9 1 1 "lesson" (some "NOPE") "pay_x" 1 0
        = (.error "Промокод недействителен", dbC9)
    ∧ (create_payment dbC9 1 1 "lesson" (some "NOPE") "pay_x" 1 0).2.purchases = [] := by
  exact ⟨⟨by decide, by decide⟩, ⟨rfl, by decide⟩, by decide, rfl, rfl⟩

/-- C9 amended: create_payment walks its checks in order — missing user,
inactive user, unsupported item type (raised inside _get_item_and_price),
missing item, inactive item, duplicate completed purchase, and failing
promo code all abort with an error and leave the state unchanged; when
every check passes (and a supplied promo code redeems), exactly one new
pending Purchase carrying the supplied fresh payment_id is appended. -/
theorem C9_create_payment_paths :
    ∀ (db : Db) (userId itemId : Nat) (itemType : String)
      (promoCode : Option String) (freshPid : String) (newId : Nat) (now : Int),
      (db.users.find? (fun u => u.id == userId) = none →
        create_payment db userId itemId itemType promoCode freshPid newId now
          = (.error "Пользователь не найден", db))
      ∧ (∀ u, db.users.find? (fun u => u.id == userId) = some u →
          u.isActive = false →
          create_payment db userId itemId itemType promoCode freshPid newId now
            = (.error "Пользователь неактивен", db))
      ∧ (∀ u e, db.users.find? (fun u => u.id == userId) = some u →
          u.isActive = true →
          get_item_and_price db itemId itemType = .error e →
          create_payment db userId itemId itemType promoCode freshPid newId now
            = (.error e, db))
      ∧ (∀ u pr, db.users.find? (fun u => u.id == userId) = some u →
          u.isActive = true →
          get_item_and_price db itemId itemType = .ok (none, pr) →
          create_payment db userId itemId itemType promoCode freshPid newId now
            = (.error "не найден", db))
      ∧ (∀ u it pr, db.users.find? (fun u => u.id == userId) = some u →
          u.isActive = true →
          get_item_and_price db itemId itemType = .ok (some it, pr) →
          it.isActive = false →
          create_payment db userId itemId itemType promoCode freshPid newId now
            = (.error "неактивен", db))
      ∧ (∀ u it pr, db.users.find? (fun u => u.id == userId) = some u →
          u.isActive = true →
          get_item_and_price db itemId itemType = .ok (some it, pr) →
          it.isActive = true →
          check_existing_purchase db userId itemId itemType = true →
          create_payment db userId itemId itemType promoCode freshPid newId now
            = (.error "Товар уже приобретен", db))
      ∧ (∀ u it pr code e db2,
          db.users.find? (fun u => u.id == userId) = some u →
          u.isActive = true →
          get_item_and_price db itemId itemType = .ok (some it, pr) →
          it.isActive = true →
          check_existing_purchase db userId itemId itemType = false →
          promoCode = some code →
          apply_promo_code_payment db code pr now = (.error e, db2) →
          create_payment db userId itemId itemType promoCode freshPid newId now
            = (.error e, db) ∧ db2 = db)
      ∧ (∀ u it pr,
          db.users.find? (fun u => u.id == userId) = some u →
          u.isActive = true →
          get_item_and_price db itemId itemType = .ok (some it, pr) →
          it.isActive = true →
          check_existing_purchase db userId itemId itemType = false →
          promoCode = none →
          create_payment db userId itemId itemType promoCode freshPid newId now
            = (.ok
                { payment_id := freshPid
                  amount := pr
                  final_amount := pr
                  discount_applied := 0
                  invoice_payload :=
                    create_invoice_payload userId (some itemId) itemType freshPid now },
               { db with purchases := db.purchases ++
                  [{ id := newId
                     userId := userId
                     lessonId := if itemType = "lesson" then some itemId else none
                     courseId := if itemType = "lesson" then none else some itemId
                     paymentId := freshPid
                     amount := pr
                     status := PurchaseStatus.pending
                     createdAt := now
                     updatedAt := now }] }))
      ∧ (∀ u it pr code d f db2,
          db.users.find? (fun u => u.id == userId) = some u →
          u.isActive = true →
          get_item_and_price db itemId itemType = .ok (some it, pr) →
          it.isActive = true →
          check_existing_purchase db userId itemId itemType = false →
          promoCode = some code →
          apply_promo_code_payment db code pr now = (.ok (d, f), db2) →
          create_payment db userId itemId itemType promoCode freshPid newId now
            = (.ok
                { payment_id := freshPid
                  amount := pr
                  final_amount := f
                  discount_applied := d
                  invoice_payload :=
                    create_invoice_payload userId (some itemId) itemType freshPid now },
               { db2 with purchases := db2.purchases ++
                  [{ id := newId
                     userId := userId
                     lessonId := if itemType = "lesson" then some itemId else none
                     courseId := if itemType = "lesson" then none else some itemId
                     paymentId := freshPid
                     amount := f
                     status := PurchaseStatus.pending
                     createdAt := now
                     updatedAt := now }] })
            ∧ db2.purchases = db.purchases) := by
  intro db userId itemId itemType promoCode freshPid newId now
  refine ⟨?_, ?_, ?_, ?_, ?_, ?_, ?_, ?_, ?_⟩
  · intro hu
    simp only [create_payment, hu]
  · intro u hu hact
    simp only [create_payment, hu, hact, Bool.not_false, Bool.false_eq_true, ite_false, ite_true]
  · intro u e hu hact hget
    simp only [create_payment, hu, hact, hget, Bool.not_true, Bool.false_eq_true, ite_false, ite_true]
  · intro u pr hu hact hget
    simp only [create_payment, hu, hact, hget, Bool.not_true, Bool.false_eq_true, ite_false, ite_true]
  · intro u it pr hu hact hget hit
    simp only [create_payment, hu, hact, hget, hit, Bool.not_true, Bool.not_false,
      Bool.false_eq_true, ite_false, ite_true]
  · intro u it pr hu hact hget hit hchk
    simp only [create_payment, hu, hact, hget, hit, hchk, Bool.not_true, Bool.not_false,
      Bool.false_eq_true, ite_false, ite_true]
  · intro u it pr code e db2 hu hact hget hit hchk hpc hap
    subst hpc
    have hdb2 : db2 = db := apply_promo_error_eq db code pr now e db2 hap
    subst hdb2
    constructor
    · simp only [create_payment, hu, hact, hget, hit, hchk, hap, Bool.not_true,
        Bool.not_false, Bool.false_eq_true, ite_false, ite_true]
    · rfl
  · intro u it pr hu hact hget hit hchk hpc
    subst hpc
    simp only [create_payment, hu, hact, hget, hit, hchk, Bool.not_true,
      Bool.not_false, Bool.false_eq_true, ite_false, ite_true]
  · intro u it pr code d f db2 hu hact hget hit hchk hpc hap
    subst hpc
    refine ⟨?_, ?_⟩
    · simp only [create_payment, hu, hact, hget, hit, hchk, hap, Bool.not_true,
        Bool.not_false, Bool.false_eq_true, ite_false, ite_true]
    · exact (congrArg (fun x => x.purchases) (congrArg Prod.snd hap)).symm.trans
        (apply_promo_purchases db code pr now)

/-- Witness for C9: on the concrete valid context, a call without a promo
code persists exactly one pending purchase with the supplied payment id,
and a call with an unknown promo code errors out leaving the state
unchanged. -/
theorem C9_create_payment_paths_witness :
    create_payment dbC9 1 1 "lesson" none "pay_x" 1 0
      = (.ok
          { payment_id := "pay_x", amount := 100, final_amount := 100,
            discount_applied := 0,
            invoice_payload := create_invoice_payload 1 (some 1) "lesson" "pay_x" 0 },
         { dbC9 with purchases := dbC9.purchases ++
            [{ id := 1, userId := 1,
               lessonId := if "lesson" = "lesson" then some 1 else none,
               courseId := if "lesson" = "lesson" then none else some 1,
               paymentId := "pay_x", amount := 100,
               status := PurchaseStatus.pending, createdAt := 0, updatedAt := 0 }] })
    ∧ (create_payment dbC9 1 1 "lesson" (some "NOPE") "pay_y" 1 0
        = (.error "Промокод недействителен", dbC9) ∧ dbC9 = dbC9) :=
  ⟨(C9_create_payment_paths dbC9 1 1 "lesson" none "pay_x" 1 0).2.2.2.2.2.2.2.1
      userC9 (.lesson lessonC9) 100 (by decide) (by decide) rfl (by decide)
      (by decide) rfl,
   (C9_create_payment_paths dbC9 1 1 "lesson" (some "NOPE") "pay_y" 1 0).2.2.2.2.2.2.1
      userC9 (.lesson lessonC9) 100 "NOPE" "Промокод недействителен" dbC9
      (by decide) (by decide) rfl (by decide) (by decide) rfl rfl⟩

/-- A one-use promo code, not yet redeemed. -/
def promoC10 : PromoCode :=
  { id := 1, code := "RACE", discountPercent := 10, discountAmount := none,
    maxUses := some 1, currentUses := 0, isActive := true, expiresAt := none }

def dbC10 : Db := { emptyDb with promocodes := [promoC10] }

/-- C10: the race in use_promo_code.  Each call is a non-atomic
read-modify-write: validate_promo_code reads a snapshot, then redeemCommit
writes back snapshot.current_uses + 1.  In the interleaving where both
sessions read before either writes (R1 R2 W1 W2), both validations succeed
on the same initial snapshot, so BOTH calls return success on a
max_uses = 1 code — the claim's "exactly one succeeds" fails — and the
final counter records a single use (a lost update) although two discounts
were handed out.  Run serially, the same two calls do satisfy the claim:
the second one fails.  The code performs no atomic conditional update that
would exclude the interleaving. -/
theorem C10_concurrent_redemption_race :
    validate_promo_code dbC10 "RACE" 0 = .ok promoC10
    ∧ (redeemCommit (redeemCommit dbC10 promoC10) promoC10).promocodes.map
        (fun p => (p.currentUses, p.isActive)) = [(1, false)]
    ∧ (use_promo_code dbC10 "RACE" 0).1 = true
    ∧ (use_promo_code (use_promo_code dbC10 "RACE" 0).2 "RACE" 0).1 = false := by
  exact ⟨rfl, by decide, by decide, by decide⟩

/-! ## The withdrawal ledger invariant (C3) -/

/-- Wellformedness of the withdrawal table as the SQL store guarantees it:
primary keys are unique and amounts are nonnegative Stars counts. -/
abbrev WithdrawTableWf (db : Db) : Prop :=
  (db.withdraws.map (fun w => w.id)).Nodup ∧ ∀ w ∈ db.withdraws, 0 ≤ w.amount

/-- The claim's bound: approved+completed payouts stay within completed
revenue minus commission. -/
abbrev WithinBounds (db : Db) : Prop :=
  totalWithdraws db ≤ totalRevenue db - commissionOf db

/-- The inductive ledger invariant: a wellformed withdrawal table whose
approved+completed total is within bounds. -/
abbrev LedgerInv (db : Db) : Prop := WithdrawTableWf db ∧ WithinBounds db

/-- Updating the row with key k (where the replacement keeps the key)
leaves the column of primary keys unchanged. -/
lemma map_id_update (l : List WithdrawRequest) (k : Nat) (w1 : WithdrawRequest)
    (h : w1.id = k) :
    ((l.map (fun q => if q.id = k then w1 else q)).map (fun q => q.id))
      = l.map (fun q => q.id) := by
  rw [List.map_map]
  apply List.map_congr_left
  intro q hq
  by_cases hqk : q.id = k
  · simp [Function.comp, hqk, h]
  · simp [Function.comp, hqk]

/-- Effect of a keyed row update on any SUM aggregate, provided keys are
unique: the old row's contribution is swapped for the new one's. -/
lemma sum_map_update (g : WithdrawRequest → Int) (k : Nat) (w1 : WithdrawRequest) :
    ∀ (l : List WithdrawRequest) (w : WithdrawRequest),
      l.find? (fun q => q.id == k) = some w →
      (l.map (fun q => q.id)).Nodup →
      ((l.map (fun q => if q.id = k then w1 else q)).map g).sum
        = (l.map g).sum - g w + g w1 := by
  intro l
  induction l with
  | nil => intro w h _; cases h
  | cons a t ih =>
    intro w h hnd
    simp only [List.map_cons, List.nodup_cons] at hnd
    obtain ⟨ha, hndt⟩ := hnd
    by_cases hak : a.id = k
    · have hw : w = a := by
        rw [List.find?_cons_of_pos t (by simp [hak])] at h
        exact (Option.some.inj h).symm
      subst hw
      have ht0 : t.map (fun q => if q.id = k then w1 else q) = t.map id :=
        List.map_congr_left (fun q hq => by
          have hqk : ¬(q.id = k) := by
            intro hqk
            exact ha (by rw [hak, ← hqk]; exact List.mem_map_of_mem _ hq)
          simp [hqk])
      have ht : t.map (fun q => if q.id = k then w1 else q) = t := by
        rw [ht0, List.map_id]
      simp only [List.map_cons, if_pos hak, ht, List.sum_cons]
      ring
    · have h2 : t.find? (fun q => q.id == k) = some w := by
        rwa [List.find?_cons_of_neg t (by simp [hak])] at h
      simp only [List.map_cons, if_neg hak, List.sum_cons, ih w h2 hndt]
      ring

/-- Every element of a Nat list is bounded by a max-fold over it. -/
lemma le_foldl_max_base : ∀ (l : List Nat) (a : Nat), a ≤ l.foldl Nat.max a := by
  intro l
  induction l with
  | nil => intro a; exact Nat.le_refl a
  | cons b t ih =>
    intro a
    exact Nat.le_trans (Nat.le_max_left a b) (ih (Nat.max a b))

lemma mem_le_foldl_max : ∀ (l : List Nat) (a i : Nat), i ∈ l → i ≤ l.foldl Nat.max a := by
  intro l
  induction l with
  | nil => intro a i h; cases h
  | cons b t ih =>
    intro a i h
    rcases List.mem_cons.mp h with rfl | h2
    · exact Nat.le_trans (Nat.le_max_right a i) (le_foldl_max_base t (Nat.max a i))
    · exact ih (Nat.max a b) i h2

/-- No withdrawal operation touches the purchases table. -/
lemma applyWithdrawOp_purchases (db : Db) (op : WithdrawOp) :
    (applyWithdrawOp db op).purchases = db.purchases := by
  cases op with
  | create amount wallet notes now =>
    show (create_withdraw_request db amount wallet notes now).2.purchases = db.purchases
    unfold create_withdraw_request
    dsimp only
    split_ifs <;> rfl
  | approve rid aid notes now =>
    show (approve_withdraw db rid aid notes now).2.purchases = db.purchases
    unfold approve_withdraw
    cases hfind : get_withdraw_request_by_id db rid with
    | none => rfl
    | some w =>
      dsimp only
      split_ifs <;> rfl
  | reject rid aid reason now =>
    show (reject_withdraw db rid aid reason now).2.purchases = db.purchases
    unfold reject_withdraw
    cases hfind : get_withdraw_request_by_id db rid with
    | none => rfl
    | some w =>
      dsimp only
      split_ifs <;> rfl
  | process rid aid now =>
    show (process_withdraw db rid aid now).2.purchases = db.purchases
    unfold process_withdraw
    cases hfind : get_withdraw_request_by_id db rid with
    | none => rfl
    | some w =>
      dsimp only
      split_ifs <;> rfl

/-- Pending totals are nonnegative in a table with nonnegative amounts. -/
lemma pendingWithdraws_nonneg (db : Db) (h : ∀ w ∈ db.withdraws, 0 ≤ w.amount) :
    0 ≤ pendingWithdraws db := by
  apply List.sum_nonneg
  intro x hx
  obtain ⟨w, hw, rfl⟩ := List.mem_map.mp hx
  unfold pendAmt
  split
  · exact h w hw
  · exact le_refl 0

/-- Effect of a keyed row update on the approved+completed total. -/
lemma totalWithdraws_setWithdraw (db : Db) (k : Nat) (w w1 : WithdrawRequest)
    (hfind : db.withdraws.find? (fun q => q.id == k) = some w)
    (hnd : (db.withdraws.map (fun q => q.id)).Nodup) :
    totalWithdraws (setWithdraw db k w1)
      = totalWithdraws db - acAmt w + acAmt w1 :=
  sum_map_update acAmt k w1 db.withdraws w hfind hnd

/-- A keyed row update that keeps the key and the amount nonnegative
preserves table wellformedness. -/
lemma wf_setWithdraw (db : Db) (k : Nat) (w1 : WithdrawRequest)
    (hid : w1.id = k) (hamt1 : 0 ≤ w1.amount) (hwf : WithdrawTableWf db) :
    WithdrawTableWf (setWithdraw db k w1) := by
  obtain ⟨hnd, hamt⟩ := hwf
  constructor
  · show ((db.withdraws.map (fun q => if q.id = k then w1 else q)).map
      (fun w => w.id)).Nodup
    rw [map_id_update db.withdraws k w1 hid]
    exact hnd
  · intro x hx
    obtain ⟨q, hq, rfl⟩ := List.mem_map.mp hx
    by_cases hqk : q.id = k
    · simp only [if_pos hqk]
      exact hamt1
    · simp only [if_neg hqk]
      exact hamt q hq

/-- Appending a fresh pending request with nonnegative amount preserves the
ledger invariant. -/
lemma ledgerInv_append_pending (db : Db) (w : WithdrawRequest)
    (hst : w.status = WithdrawStatus.pending) (hamt0 : 0 ≤ w.amount)
    (hwid : w.id = freshWithdrawId db) (h : LedgerInv db) :
    LedgerInv { db with withdraws := db.withdraws ++ [w] } := by
  obtain ⟨⟨hnd, hamt⟩, hb⟩ := h
  refine ⟨⟨?_, ?_⟩, ?_⟩
  · show ((db.withdraws ++ [w]).map (fun q => q.id)).Nodup
    rw [List.map_append, List.nodup_append]
    refine ⟨hnd, List.nodup_singleton _, ?_⟩
    intro i hi hj
    have h1 : i ≤ (db.withdraws.map (fun q => q.id)).foldl Nat.max 0 :=
      mem_le_foldl_max _ 0 i hi
    have h2 : i = w.id := by simpa using hj
    rw [hwid] at h2
    unfold freshWithdrawId at h2
    omega
  · intro x hx
    rcases List.mem_append.mp hx with h1 | h1
    · exact hamt x h1
    · have : x = w := by simpa using h1
      rw [this]
      exact hamt0
  · show totalWithdraws { db with withdraws := db.withdraws ++ [w] }
      ≤ totalRevenue { db with withdraws := db.withdraws ++ [w] }
        - commissionOf { db with withdraws := db.withdraws ++ [w] }
    have hrev : totalRevenue { db with withdraws := db.withdraws ++ [w] }
        = totalRevenue db := rfl
    have hcom : commissionOf { db with withdraws := db.withdraws ++ [w] }
        = commissionOf db := rfl
    have htot : totalWithdraws { db with withdraws := db.withdraws ++ [w] }
        = totalWithdraws db + acAmt w := by
      show ((db.withdraws ++ [w]).map acAmt).sum = totalWithdraws db + acAmt w
      rw [List.map_append, List.sum_append]
      simp [totalWithdraws]
    have hac : acAmt w = 0 := by
      unfold acAmt
      rw [hst]
      simp
    rw [hrev, hcom, htot, hac]
    omega

/-- One withdrawal operation preserves the ledger invariant. -/
lemma ledgerInv_step (db : Db) (op : WithdrawOp) (h : LedgerInv db) :
    LedgerInv (applyWithdrawOp db op) := by
  obtain ⟨⟨hnd, hamt⟩, hb⟩ := h
  have hb2 : totalWithdraws db ≤ totalRevenue db - commissionOf db := hb
  cases op with
  | create amount wallet notes now =>
    show LedgerInv (create_withdraw_request db amount wallet notes now).2
    unfold create_withdraw_request
    dsimp only
    split_ifs with h1 h2 h3
    · exact ⟨⟨hnd, hamt⟩, hb⟩
    · exact ⟨⟨hnd, hamt⟩, hb⟩
    · exact ⟨⟨hnd, hamt⟩, hb⟩
    · refine ledgerInv_append_pending db _ rfl ?_ rfl ⟨⟨hnd, hamt⟩, hb⟩
      show (0 : Int) ≤ amount
      unfold MIN_WITHDRAW_AMOUNT at h1
      omega
  | approve rid aid notes now =>
    show LedgerInv (approve_withdraw db rid aid notes now).2
    unfold approve_withdraw
    cases hfind : get_withdraw_request_by_id db rid with
    | none => exact ⟨⟨hnd, hamt⟩, hb⟩
    | some w =>
      have hfind2 : db.withdraws.find? (fun q => q.id == rid) = some w := hfind
      have hwid : w.id = rid := by
        have hp := List.find?_some hfind2
        simpa using hp
      have hwmem : w ∈ db.withdraws := List.mem_of_find?_eq_some hfind2
      have hfindw : db.withdraws.find? (fun q => q.id == w.id) = some w := by
        rw [hwid]
        exact hfind2
      have hpw : (0 : Int) ≤ pendingWithdraws db := pendingWithdraws_nonneg db hamt
      have hwamt : (0 : Int) ≤ w.amount := hamt w hwmem
      dsimp only
      split_ifs with hst hgt htn
      · exact ⟨⟨hnd, hamt⟩, hb⟩
      · -- auto-reject on insufficient funds: both contributions are zero
        have hstp : w.status = WithdrawStatus.pending := not_not.mp hst
        refine ⟨wf_setWithdraw db w.id _ rfl (hamt w hwmem) ⟨hnd, hamt⟩, ?_⟩
        show totalWithdraws (setWithdraw db w.id _) ≤ totalRevenue db - commissionOf db
        rw [totalWithdraws_setWithdraw db w.id w _ hfindw hnd]
        simp only [acAmt, hstp]
        simp
        omega
      all_goals
        -- approval: the pending row joins the approved total, which the
        -- re-checked available balance keeps within bounds
        have hstp : w.status = WithdrawStatus.pending := not_not.mp hst
        refine ⟨wf_setWithdraw db w.id _ rfl (hamt w hwmem) ⟨hnd, hamt⟩, ?_⟩
        show totalWithdraws (setWithdraw db w.id _) ≤ totalRevenue db - commissionOf db
        rw [totalWithdraws_setWithdraw db w.id w _ hfindw hnd]
        have havail : ¬(w.amount > max 0 (totalRevenue db - totalWithdraws db
            - pendingWithdraws db - commissionOf db)) := hgt
        simp only [acAmt, hstp]
        simp
        omega
  | reject rid aid reason now =>
    show LedgerInv (reject_withdraw db rid aid reason now).2
    unfold reject_withdraw
    cases hfind : get_withdraw_request_by_id db rid with
    | none => exact ⟨⟨hnd, hamt⟩, hb⟩
    | some w =>
      have hfind2 : db.withdraws.find? (fun q => q.id == rid) = some w := hfind
      have hwid : w.id = rid := by
        have hp := List.find?_some hfind2
        simpa using hp
      have hwmem : w ∈ db.withdraws := List.mem_of_find?_eq_some hfind2
      have hfindw : db.withdraws.find? (fun q => q.id == w.id) = some w := by
        rw [hwid]
        exact hfind2
      dsimp only
      split_ifs with hst
      · exact ⟨⟨hnd, hamt⟩, hb⟩
      · have hstp : w.status = WithdrawStatus.pending := not_not.mp hst
        refine ⟨wf_setWithdraw db w.id _ rfl (hamt w hwmem) ⟨hnd, hamt⟩, ?_⟩
        show totalWithdraws (setWithdraw db w.id _) ≤ totalRevenue db - commissionOf db
        rw [totalWithdraws_setWithdraw db w.id w _ hfindw hnd]
        simp only [acAmt, hstp]
        simp
        omega
  | process rid aid now =>
    show LedgerInv (process_withdraw db rid aid now).2
    unfold process_withdraw
    cases hfind : get_withdraw_request_by_id db rid with
    | none => exact ⟨⟨hnd, hamt⟩, hb⟩
    | some w =>
      have hfind2 : db.withdraws.find? (fun q => q.id == rid) = some w := hfind
      have hwid : w.id = rid := by
        have hp := List.find?_some hfind2
        simpa using hp
      have hwmem : w ∈ db.withdraws := List.mem_of_find?_eq_some hfind2
      have hfindw : db.withdraws.find? (fun q => q.id == w.id) = some w := by
        rw [hwid]
        exact hfind2
      dsimp only
      split_ifs with hst
      · exact ⟨⟨hnd, hamt⟩, hb⟩
      · have hsta : w.status = WithdrawStatus.approved := not_not.mp hst
        refine ⟨wf_setWithdraw db w.id _ rfl (hamt w hwmem) ⟨hnd, hamt⟩, ?_⟩
        show totalWithdraws (setWithdraw db w.id _) ≤ totalRevenue db - commissionOf db
        rw [totalWithdraws_setWithdraw db w.id w _ hfindw hnd]
        simp only [acAmt, hsta]
        simp
        omega

/-- C3: starting from a wellformed state whose approved+completed
withdrawal total is within total completed revenue minus commission, every
sequence of withdrawal operations (create, approve, reject, process)
preserves that bound; and approve_withdraw, re-evaluating the available
balance at approval time, auto-rejects a pending request whose amount
exceeds it — setting status rejected with an explanatory note and
returning false. -/
theorem C3_withdraw_ledger_invariant :
    (∀ (db : Db) (ops : List WithdrawOp),
      LedgerInv db → LedgerInv (applyWithdrawOps db ops))
    ∧ (∀ (db : Db) (rid aid : Nat) (notes : Option String) (now : Int)
        (w : WithdrawRequest),
        get_withdraw_request_by_id db rid = some w →
        w.status = WithdrawStatus.pending →
        w.amount > calculate_available_amount db →
        approve_withdraw db rid aid notes now
          = (false, setWithdraw db w.id
              { w with
                status := WithdrawStatus.rejected
                notes := some ("Недостаточно средств. Доступно: "
                  ++ toString (calculate_available_amount db) ++ " Stars")
                adminId := some aid
                processedAt := some now })) := by
  constructor
  · intro db ops
    induction ops generalizing db with
    | nil => intro h; exact h
    | cons op rest ih =>
      intro h
      exact ih (applyWithdrawOp db op) (ledgerInv_step db op h)
  · intro db rid aid notes now w hfind hpend hgt
    unfold approve_withdraw
    rw [hfind]
    dsimp only
    rw [if_neg (by simp [hpend]), if_pos hgt]

/-- Revenue source for the witness: one completed purchase of 1000 Stars
(commission 50, so 950 are withdrawable). -/
def purchC3 : Purchase :=
  { id := 1, userId := 1, lessonId := some 1, courseId := none,
    paymentId := "pay_r", amount := 1000, status := PurchaseStatus.completed,
    createdAt := 0, updatedAt := 0 }

def dbC3 : Db := { emptyDb with purchases := [purchC3] }

/-- A workload exercising all four operations. -/
def opsC3 : List WithdrawOp :=
  [ .create 100 none none 0, .approve 1 1 none 1, .process 1 1 2,
    .create 200 none none 3, .reject 2 1 "declined" 4 ]

/-- A pending 200-Stars request against an empty ledger (available = 0). -/
def wC3 : WithdrawRequest :=
  { id := 1, amount := 200, status := WithdrawStatus.pending,
    telegramWalletAddress := none, requestedAt := 0, processedAt := none,
    adminId := none, notes := none }

def dbC3b : Db := { emptyDb with withdraws := [wC3] }

/-- Witness for C3: the invariant evaluated through the concrete workload,
and a concrete auto-rejection of an over-sized pending request. -/
theorem C3_withdraw_ledger_invariant_witness :
    LedgerInv (applyWithdrawOps dbC3 opsC3)
    ∧ approve_withdraw dbC3b 1 9 none 5
        = (false, setWithdraw dbC3b wC3.id
            { wC3 with
              status := WithdrawStatus.rejected
              notes := some ("Недостаточно средств. Доступно: "
                ++ toString (calculate_available_amount dbC3b) ++ " Stars")
              adminId := some 9
              processedAt := some 5 }) :=
  ⟨C3_withdraw_ledger_invariant.1 dbC3 opsC3 (by decide),
   C3_withdraw_ledger_invariant.2 dbC3b 1 9 none 5 wC3
     (by decide) (by decide) (by decide)⟩

end LK
